import Mathlib

/-!
Shallow embedding of the session/upload/question-answering web application
(src/app.py) together with the parts of its dependencies that decide the
claims (werkzeug.utils.secure_filename, restricted to ASCII filenames).

The global mutable dictionaries chat_sessions and processing_status are
modelled as functions from session-id strings to optional values; the
external collaborators (PDF extractor, audio extractor, transcriber,
chat-completion service, filesystem) are passed in as Except-valued
results, exactly at the points where app.py calls them.
-/

set_option maxRecDepth 4000

/-- One chat message, as stored in chat_sessions[sid]["messages"]. -/
structure Message where
  role : String
  content : String
deriving DecidableEq, Repr

/-- One transcript segment as produced by the transcriber
(start/end in seconds, plus the text). The "end" field is named end_
because "end" is a Lean keyword. -/
structure Segment where
  start : Int
  end_ : Int
  text : String
deriving DecidableEq, Repr

/-- Per-session state: the value of chat_sessions[sid]. The Python dict is
created with keys messages, extracted_text, is_processing; the "segments"
key is only ever added by the video job, so it is modelled as an Option. -/
structure SessionData where
  messages : List Message
  extracted_text : String
  segments : Option (List Segment)
  is_processing : Bool
deriving DecidableEq, Repr

/-- The session created by the index route for an unseen token. -/
def initialSession : SessionData :=
  { messages := [], extracted_text := "", segments := none, is_processing := false }

/-- The two global dictionaries of app.py. -/
structure ServerState where
  chat : String → Option SessionData
  status : String → Option String

/-- Point update of a string-keyed map (dict assignment d[k] = v). -/
def mset (m : String → Option α) (k : String) (v : α) : String → Option α :=
  fun x => if x = k then some v else m x

/-- Update the session stored under k, if present (dict item mutation). -/
def updateSession (m : String → Option SessionData) (k : String)
    (f : SessionData → SessionData) : String → Option SessionData :=
  match m k with
  | none => m
  | some s => mset m k (f s)

/-- The empty server state (both dicts empty, as at process start). -/
def emptyState : ServerState :=
  { chat := fun _ => none, status := fun _ => none }

/-! ## format_timestamp and find_text_around_timestamp (src/app.py:159-186) -/

/-- Python f-string field {n:02d}: decimal, zero-padded to width 2. -/
def pad2 (n : Int) : String :=
  if 0 ≤ n ∧ n < 10 then "0" ++ toString n else toString n

/-- format_timestamp (src/app.py:181-186): seconds to HH:MM:SS.
Python // and % on a positive divisor agree with Int.ediv / Int.emod. -/
def format_timestamp (seconds : Int) : String :=
  let hours := seconds.ediv 3600
  let minutes := (seconds.emod 3600).ediv 60
  let secs := seconds.emod 60
  pad2 hours ++ ":" ++ pad2 minutes ++ ":" ++ pad2 secs

/-- The membership test of the loop in find_text_around_timestamp
(src/app.py:171): containment in [start, end] or start within the window. -/
def qualifies (target_seconds window_seconds : Int) (seg : Segment) : Bool :=
  decide ((seg.start ≤ target_seconds ∧ target_seconds ≤ seg.end_) ∨
    |seg.start - target_seconds| ≤ window_seconds)

/-- One output line of find_text_around_timestamp (src/app.py:173-174). -/
def segmentLine (seg : Segment) : String :=
  "[" ++ format_timestamp seg.start ++ "] " ++ seg.text

/-- find_text_around_timestamp (src/app.py:159-179). The Python for-loop
that appends matching lines to context_text is the foldl. The default of
window_seconds in the source is 30. -/
def find_text_around_timestamp (segments : List Segment)
    (target_seconds window_seconds : Int) : String :=
  if segments = [] then "No timestamp information available."
  else
    let context_text := segments.foldl
      (fun acc seg =>
        if qualifies target_seconds window_seconds seg then acc ++ [segmentLine seg] else acc)
      []
    if context_text = [] then
      "No content found around timestamp " ++ format_timestamp target_seconds ++ "."
    else
      String.intercalate "\n" context_text

/-! ## werkzeug.utils.secure_filename, on ASCII filenames

app.py line 49 sanitizes the uploaded filename with the werkzeug function
secure_filename before extracting the dispatch extension from the
sanitized name (line 50). secure_filename first NFKD-normalizes and
ASCII-encodes the name (the identity on ASCII input, which is all the
claims need), then replaces os.sep (the POSIX "/"; os.path.altsep is None)
with spaces, joins the whitespace-split words with "_", deletes every
character outside [A-Za-z0-9_.-], and strips leading/trailing "." and "_".
-/

/-- Python str.split() whitespace for ASCII characters. -/
def pyIsSpace (c : Char) : Bool :=
  c = ' ' || c = '\t' || c = '\n' || c = '\x0d' || c = '\x0b' || c = '\x0c'

/-- Characters kept by the werkzeug character class _filename_ascii_strip_re ([A-Za-z0-9_.-]). -/
def keptChar (c : Char) : Bool :=
  c.isAlphanum || c = '_' || c = '.' || c = '-'

/-- Characters removed from the ends by .strip («.» and «_»). -/
def dotOrUnderscore (c : Char) : Bool :=
  c = '.' || c = '_'

/-- Python str.split() on whitespace (runs of whitespace separate words,
no empty words), with an accumulator for the word being read. -/
def splitWsAux : List Char → List Char → List (List Char)
  | [], acc => if acc = [] then [] else [acc.reverse]
  | c :: cs, acc =>
    if pyIsSpace c then
      if acc = [] then splitWsAux cs [] else acc.reverse :: splitWsAux cs []
    else splitWsAux cs (c :: acc)

/-- Python str.split() with no arguments. -/
def splitWs (l : List Char) : List (List Char) := splitWsAux l []

/-- Python str.strip("._"): drop "." and "_" from both ends. -/
def stripDotUnderscore (l : List Char) : List Char :=
  ((l.dropWhile dotOrUnderscore).reverse.dropWhile dotOrUnderscore).reverse

/-- werkzeug.utils.secure_filename restricted to ASCII input (see section
comment): os.sep → space, split/join with "_", delete disallowed
characters, strip "._" from the ends. -/
def secure_filename (s : String) : String :=
  let cs := s.data.map (fun c => if c = '/' then ' ' else c)
  let joined := List.intercalate ['_'] (splitWs cs)
  String.mk (stripDotUnderscore (joined.filter keptChar))

/-- The characters after the last '.' of the list, or none if there is
no '.': Python filename.rsplit(".", 1)[1] succeeds exactly when a dot
exists, and raises IndexError otherwise. -/
def afterLastDot : List Char → Option (List Char)
  | [] => none
  | c :: cs =>
    match afterLastDot cs with
    | some r => some r
    | none => if c = '.' then some cs else none

/-- filename.rsplit(".", 1)[1] (src/app.py:50), as an Option. -/
def rsplitExt (s : String) : Option String :=
  (afterLastDot s.data).map String.mk

/-- Python str.lower() on ASCII strings: lowercase every character. -/
def pyLower (s : String) : String := String.mk (s.data.map Char.toLower)

/-! ## The upload handler (src/app.py:30-82)

The handler is modelled as a pure function from the request and the server
state to a response plus the ordered trace of effects it performs on the
shared state (dict writes, file saves, thread launches). The trace makes
the transient states visible: line 44 sets is_processing true before the
extension is even computed. An uncaught Python exception (the KeyError of
line 44 on an unregistered session id) is the .crash response; jsonify
responses are .ok code message. -/

/-- One effect of the upload handler, in source order. -/
inductive UEvent where
  | setProcessing (b : Bool)
  | setStatus (msg : String)
  | saveFile (dir : String) (name : String)
  | launchPdfJob (path : String)
  | launchVideoJob (path : String)
deriving DecidableEq, Repr

/-- Modelled from the spec: the three upload directories of app.config
(config.py is not part of the given sources; the spec names directories
for PDF uploads, video uploads and temporary audio extraction). -/
def UPLOAD_FOLDER_PDF : String := "uploads/pdfs"

/-- Modelled from the spec: the video upload directory (see UPLOAD_FOLDER_PDF). -/
def UPLOAD_FOLDER_VIDEO : String := "uploads/videos"

/-- Modelled from the spec: the temporary audio directory (see UPLOAD_FOLDER_PDF). -/
def UPLOAD_FOLDER_TEMP : String := "uploads/temp"

/-- os.path.join for one separator. -/
def pathJoin (a b : String) : String := a ++ "/" ++ b

/-- The video-extension allow-list of src/app.py:63. -/
def videoExtensions : List String := ["mp4", "mov", "avi", "mkv"]

/-- An /upload request: whether "file" is in request.files, the submitted
filename, and the session token (none when the cookie has no session_id). -/
structure UploadReq where
  hasFile : Bool
  filename : String
  session_id : Option String
deriving DecidableEq, Repr

/-- An HTTP response of the upload handler: a jsonify response with a
code, or an uncaught Python exception (.crash). -/
inductive UResponse where
  | ok (code : Nat) (body : String)
  | crash (err : String)
deriving DecidableEq, Repr

/-- Result of the upload handler: the HTTP response and the trace of
effects in source order. -/
structure UploadOutcome where
  response : UResponse
  events : List UEvent
deriving DecidableEq, Repr

/-- upload_file (src/app.py:30-82). Python "if not session_id" is true for
both a missing and an empty token. Line 44 subscripts chat_sessions with an
unchecked key: for an unregistered session id it raises KeyError before any
other effect. Inside the try block, a sanitized name without a dot makes
rsplit(".", 1)[1] raise IndexError, which the except clause converts to a
500 response after resetting is_processing. -/
def upload_file (req : UploadReq) (st : ServerState) : UploadOutcome :=
  if req.hasFile = false then ⟨.ok 400 "No file provided", []⟩
  else if req.filename = "" then ⟨.ok 400 "No file selected", []⟩
  else
    match req.session_id with
    | none => ⟨.ok 400 "Session expired", []⟩
    | some sid =>
      if sid = "" then ⟨.ok 400 "Session expired", []⟩
      else
        match st.chat sid with
        | none => ⟨.crash "KeyError", []⟩
        | some _ =>
          let pre : List UEvent :=
            [.setProcessing true, .setStatus "Processing your file..."]
          let filename := secure_filename req.filename
          match rsplitExt filename with
          | none => ⟨.ok 500 "list index out of range", pre ++ [.setProcessing false]⟩
          | some rawExt =>
            let file_extension := pyLower rawExt
            if file_extension = "pdf" then
              ⟨.ok 200 "File uploaded successfully. Processing...",
                pre ++ [.saveFile UPLOAD_FOLDER_PDF filename,
                        .launchPdfJob (pathJoin UPLOAD_FOLDER_PDF filename)]⟩
            else if videoExtensions.contains file_extension then
              ⟨.ok 200 "File uploaded successfully. Processing...",
                pre ++ [.saveFile UPLOAD_FOLDER_VIDEO filename,
                        .launchVideoJob (pathJoin UPLOAD_FOLDER_VIDEO filename)]⟩
            else
              ⟨.ok 400 "Unsupported file type", pre ++ [.setProcessing false]⟩

/-- Apply one upload-handler effect to the server state (file saves and
thread launches do not touch the two dictionaries). -/
def applyUEvent (sid : String) (st : ServerState) : UEvent → ServerState
  | .setProcessing b =>
    { st with chat := updateSession st.chat sid (fun s => { s with is_processing := b }) }
  | .setStatus msg => { st with status := mset st.status sid msg }
  | .saveFile _ _ => st
  | .launchPdfJob _ => st
  | .launchVideoJob _ => st

/-- Apply a trace of upload-handler effects in order. -/
def applyUEvents (sid : String) (st : ServerState) (events : List UEvent) : ServerState :=
  events.foldl (applyUEvent sid) st

/-- The server state after the upload handler returns. -/
def uploadFinal (req : UploadReq) (st : ServerState) : ServerState :=
  applyUEvents (req.session_id.getD "") st (upload_file req st).events

/-! ## Background jobs (src/app.py:84-120, 188-230)

Each job is a function of the session id, the results of the external
calls it makes (as Except values: .error e is a raised exception with
str(e) = e), and the server state. The try/except assembles an
intermediate state, and the finally clause is the last update, clearing
is_processing on every path. -/

/-- process_pdf_file (src/app.py:84-92). pdfRes is the outcome of
process_pdf(filepath). -/
def process_pdf_file (sid : String) (pdfRes : Except String String)
    (st : ServerState) : ServerState :=
  let st1 : ServerState :=
    match pdfRes with
    | .ok extracted_text =>
      { chat := updateSession st.chat sid (fun s => { s with extracted_text := extracted_text }),
        status := mset st.status sid "File processed successfully. You can now ask questions." }
    | .error e =>
      { st with status := mset st.status sid ("Error processing PDF: " ++ e) }
  { st1 with chat := updateSession st1.chat sid (fun s => { s with is_processing := false }) }

/-- The dict returned by transcribe_audio: result["text"] plus
result.get("segments", []) (segments may be missing, defaulting to []). -/
structure TranscriptionResult where
  text : String
  segments : Option (List Segment)
deriving DecidableEq, Repr

/-- process_video_file (src/app.py:94-120). extractRes is the outcome of
extract_audio_from_video (an audio path), transcribeRes the outcome of
transcribe_audio on that path, removeRes the outcome of os.remove on that
path. The Bool result records whether the temporary audio file was
actually deleted; any exception jumps to the except clause, skipping the
remaining statements of the try block. -/
def process_video_file (sid : String)
    (extractRes : Except String String)
    (transcribeRes : String → Except String TranscriptionResult)
    (removeRes : String → Except String Unit)
    (st : ServerState) : ServerState × Bool :=
  let step : ServerState × Bool :=
    match extractRes with
    | .error e =>
      ({ st with status := mset st.status sid ("Error processing video: " ++ e) }, false)
    | .ok audio_path =>
      match transcribeRes audio_path with
      | .error e =>
        ({ st with status := mset st.status sid ("Error processing video: " ++ e) }, false)
      | .ok transcription_result =>
        let extracted_text := transcription_result.text
        let segments := transcription_result.segments.getD []
        let st1 : ServerState :=
          { chat := updateSession st.chat sid
              (fun s => { s with extracted_text := extracted_text, segments := some segments }),
            status := mset st.status sid
              "File processed successfully. You can now ask questions." }
        match removeRes audio_path with
        | .error e =>
          ({ st1 with status := mset st1.status sid ("Error processing video: " ++ e) }, false)
        | .ok _ => (st1, true)
  ({ step.1 with chat := updateSession step.1.chat sid (fun s => { s with is_processing := false }) },
    step.2)

/-- generate_answer (src/app.py:188-230). ollamaRes is the outcome of the
ollama.chat call (the returned message content on success). -/
def generate_answer (sid : String) (ollamaRes : Except String String)
    (st : ServerState) : ServerState :=
  let st1 : ServerState :=
    match ollamaRes with
    | .ok answer =>
      { chat := updateSession st.chat sid
          (fun s => { s with messages := s.messages ++ [⟨"assistant", answer⟩] }),
        status := mset st.status sid "Answer generated successfully." }
    | .error e =>
      { chat := updateSession st.chat sid
          (fun s => { s with messages := s.messages ++
            [⟨"assistant", "Sorry, I encountered an error while processing your question: " ++ e⟩] }),
        status := mset st.status sid ("Error generating answer: " ++ e) }
  { st1 with chat := updateSession st1.chat sid (fun s => { s with is_processing := false }) }

/-! ## The remaining routes (src/app.py:18-28, 122-157, 232-254) -/

/-- Result of the /ask handler: HTTP response, resulting server state, and
the question handed to the background generate_answer thread (none when no
thread was launched). -/
structure AskOutcome where
  response : Nat × String
  state : ServerState
  launched : Option String

/-- ask_question (src/app.py:122-157). question is data.get("question",
""); Python "if not session_id" is true for a missing or empty token, and
"if not question" for the empty question string. -/
def ask_question (session_id : Option String) (question : String)
    (st : ServerState) : AskOutcome :=
  match session_id with
  | none => ⟨(400, "Session expired"), st, none⟩
  | some sid =>
    if sid = "" then ⟨(400, "Session expired"), st, none⟩
    else
      match st.chat sid with
      | none => ⟨(400, "Session expired"), st, none⟩
      | some s =>
        if s.is_processing then
          ⟨(400, "System is still processing your file"), st, none⟩
        else if question = "" then
          ⟨(400, "No question provided"), st, none⟩
        else if s.extracted_text = "" then
          ⟨(400, "No document content available. Please upload a file first."), st, none⟩
        else
          ⟨(200, "Question received. Processing..."),
            { chat := mset st.chat sid
                { s with messages := s.messages ++ [⟨"user", question⟩], is_processing := true },
              status := mset st.status sid "Generating answer..." },
            some question⟩

/-- A /status response: the 400 error, or the JSON body fields. -/
inductive StatusResp where
  | err (code : Nat) (msg : String)
  | ok (status : String) (is_processing : Bool)
deriving DecidableEq, Repr

/-- get_status (src/app.py:232-244): no (or empty) token is a 400;
otherwise processing_status.get(sid, "Ready") and
chat_sessions.get(sid, dict()).get("is_processing", False). -/
def get_status (session_id : Option String) (st : ServerState) : StatusResp :=
  match session_id with
  | none => .err 400 "Session expired"
  | some sid =>
    if sid = "" then .err 400 "Session expired"
    else .ok ((st.status sid).getD "Ready")
      (((st.chat sid).map SessionData.is_processing).getD false)

/-- index (src/app.py:18-28): session.get("session_id", str(uuid.uuid4()))
followed by registration of the id in chat_sessions if unseen. newId
stands for the fresh uuid4 string. Returns the session id in effect and
the new state. -/
def index (session_id : Option String) (newId : String)
    (st : ServerState) : String × ServerState :=
  let sid := session_id.getD newId
  match st.chat sid with
  | some _ => (sid, st)
  | none => (sid, { st with chat := mset st.chat sid initialSession })

/-- get_messages (src/app.py:246-254). -/
def get_messages (session_id : Option String) (st : ServerState) :
    Nat × Except String (List Message) :=
  match session_id with
  | none => (400, .error "Session expired")
  | some sid =>
    if sid = "" then (400, .error "Session expired")
    else
      match st.chat sid with
      | none => (400, .error "Session expired")
      | some s => (200, .ok s.messages)

/-! ## Theorems -/

/-- The appending for-loop of find_text_around_timestamp collects exactly
the qualifying segments, in input order. -/
lemma foldl_lines_eq_filter_map (t w : Int) (l : List Segment) (acc : List String) :
    l.foldl
      (fun acc seg => if qualifies t w seg then acc ++ [segmentLine seg] else acc)
      acc
      = acc ++ (l.filter (qualifies t w)).map segmentLine := by
  induction l generalizing acc with
  | nil => simp
  | cons seg rest ih =>
    by_cases hq : qualifies t w seg
    · simp [List.foldl_cons, List.filter_cons, hq, ih]
    · simp [List.foldl_cons, List.filter_cons, hq, ih]

/-- C6: find_text_around_timestamp is pure and returns the newline-joined
lines of exactly the segments whose [start, end] interval contains the
target or whose start lies within the window of the target, each line
"[HH:MM:SS] text" built from the segment start with zero-padded fields and
minutes/seconds below 60; the empty segment list gives the fixed
no-information message, and no qualifying segment gives the no-content
message naming the formatted target. The concrete cases of the claim: segments
[(0,10,a),(20,30,b)] with target 5, window 30 give the two-line string,
and with target 1000, window 5 the no-content message for 00:16:40. -/
theorem find_text_around_timestamp_correct :
    (∀ (segs : List Segment) (t w : Int),
      find_text_around_timestamp segs t w =
        if segs = [] then "No timestamp information available."
        else if segs.filter (qualifies t w) = [] then
          "No content found around timestamp " ++ format_timestamp t ++ "."
        else String.intercalate "\n" ((segs.filter (qualifies t w)).map segmentLine)) ∧
    (∀ (seg : Segment) (t w : Int),
      qualifies t w seg = true ↔
        ((seg.start ≤ t ∧ t ≤ seg.end_) ∨ |seg.start - t| ≤ w)) ∧
    (∀ seg : Segment, segmentLine seg = "[" ++ format_timestamp seg.start ++ "] " ++ seg.text) ∧
    (∀ s : Int,
      0 ≤ (s.emod 3600).ediv 60 ∧ (s.emod 3600).ediv 60 < 60 ∧
      0 ≤ s.emod 60 ∧ s.emod 60 < 60) ∧
    find_text_around_timestamp [⟨0, 10, "a"⟩, ⟨20, 30, "b"⟩] 5 30 =
      "[00:00:00] a" ++ "\n" ++ "[00:00:20] b" ∧
    find_text_around_timestamp [] 5 30 = "No timestamp information available." ∧
    find_text_around_timestamp [⟨0, 10, "a"⟩, ⟨20, 30, "b"⟩] 1000 5 =
      "No content found around timestamp 00:16:40." ∧
    format_timestamp 1000 = "00:16:40" := by
  refine ⟨?_, ?_, ?_, ?_, ?_, ?_, ?_, ?_⟩
  · intro segs t w
    by_cases hnil : segs = []
    · simp [find_text_around_timestamp, hnil]
    · simp only [find_text_around_timestamp, hnil, if_false]
      rw [foldl_lines_eq_filter_map]
      by_cases hfil : segs.filter (qualifies t w) = []
      · simp [hfil]
      · simp [hfil]
  · intro seg t w
    simp [qualifies]
  · intro seg
    rfl
  · intro s
    have h1 : 0 ≤ s.emod 3600 := Int.emod_nonneg s (by norm_num)
    have h2 : s.emod 3600 < 3600 := Int.emod_lt_of_pos s (by norm_num)
    have h3 : 0 ≤ s.emod 60 := Int.emod_nonneg s (by norm_num)
    have h4 : s.emod 60 < 60 := Int.emod_lt_of_pos s (by norm_num)
    have h5 : (s.emod 3600).ediv 60 ≤ (3599 : Int).ediv 60 :=
      Int.ediv_le_ediv (by norm_num) (by omega)
    have h6 : 0 ≤ (s.emod 3600).ediv 60 := Int.ediv_nonneg h1 (by norm_num)
    have h7 : (3599 : Int).ediv 60 = 59 := by decide
    omega
  · decide
  · decide
  · decide
  · decide

/-- String concatenation is associative (via the underlying char lists). -/
lemma string_append_assoc (a b c : String) : a ++ b ++ c = a ++ (b ++ c) := by
  cases a with
  | mk ad =>
    cases b with
    | mk bd =>
      cases c with
      | mk cd =>
        show String.mk (ad ++ bd ++ cd) = String.mk (ad ++ (bd ++ cd))
        exact congrArg String.mk (List.append_assoc ad bd cd)

/-- s contains the word w as a substring. -/
def containsWord (w s : String) : Prop := ∃ a b, s = a ++ (w ++ b)

/-- C1: ask_question checks its preconditions in order, each with its own
400 response: missing/empty/unknown session token, busy session, empty
question, empty extracted_text. The failing cases, in particular the busy
one, leave the state untouched (nothing is appended to messages) and
launch nothing; only when all four checks pass is the user message
appended, is_processing set, the "Generating answer..." status written and
the background job launched. -/
theorem ask_question_checks :
    (∀ q st, ask_question none q st = ⟨(400, "Session expired"), st, none⟩) ∧
    (∀ q st, ask_question (some "") q st = ⟨(400, "Session expired"), st, none⟩) ∧
    (∀ q st t, t ≠ "" → st.chat t = none →
      ask_question (some t) q st = ⟨(400, "Session expired"), st, none⟩) ∧
    (∀ q st t s, t ≠ "" → st.chat t = some s → s.is_processing = true →
      ask_question (some t) q st = ⟨(400, "System is still processing your file"), st, none⟩) ∧
    (∀ st t s, t ≠ "" → st.chat t = some s → s.is_processing = false →
      ask_question (some t) "" st = ⟨(400, "No question provided"), st, none⟩) ∧
    (∀ q st t s, t ≠ "" → st.chat t = some s → s.is_processing = false → q ≠ "" →
      s.extracted_text = "" →
      ask_question (some t) q st =
        ⟨(400, "No document content available. Please upload a file first."), st, none⟩) ∧
    (∀ q st t s, t ≠ "" → st.chat t = some s → s.is_processing = false → q ≠ "" →
      s.extracted_text ≠ "" →
      ask_question (some t) q st =
        ⟨(200, "Question received. Processing..."),
          { chat := mset st.chat t
              { s with messages := s.messages ++ [⟨"user", q⟩], is_processing := true },
            status := mset st.status t "Generating answer..." },
          some q⟩) := by
  refine ⟨?_, ?_, ?_, ?_, ?_, ?_, ?_⟩
  · intro q st; rfl
  · intro q st; rfl
  · intro q st t ht hchat
    simp [ask_question, ht, hchat]
  · intro q st t s ht hchat hproc
    simp [ask_question, ht, hchat, hproc]
  · intro st t s ht hchat hproc
    simp [ask_question, ht, hchat, hproc]
  · intro q st t s ht hchat hproc hq hdoc
    simp [ask_question, ht, hchat, hproc, hq, hdoc]
  · intro q st t s ht hchat hproc hq hdoc
    simp [ask_question, ht, hchat, hproc, hq, hdoc]

/-- A session holding a processed document, used to exercise the handlers. -/
def docSession : SessionData :=
  { messages := [], extracted_text := "doc text", segments := none, is_processing := false }

/-- docSession while its background job is in flight. -/
def busySession : SessionData := { docSession with is_processing := true }

/-- A one-session store whose session is busy. -/
def stBusy : ServerState :=
  { chat := mset (fun _ => none) "s" busySession, status := fun _ => none }

/-- A one-session store whose session is idle with a document. -/
def stDoc : ServerState :=
  { chat := mset (fun _ => none) "s" docSession, status := fun _ => none }

/-- Witness for ask_question_checks: the busy check rejects a concrete
request without touching the state, and a concrete request passing all
checks appends the user message and launches the job. -/
theorem ask_question_checks_witness :
    (ask_question (some "s") "q" stBusy =
      ⟨(400, "System is still processing your file"), stBusy, none⟩) ∧
    (ask_question (some "s") "q" stDoc =
      ⟨(200, "Question received. Processing..."),
        { chat := mset stDoc.chat "s"
            { docSession with
              messages := docSession.messages ++ [⟨"user", "q"⟩],
              is_processing := true },
          status := mset stDoc.status "s" "Generating answer..." },
        some "q"⟩) := by
  constructor
  · exact ask_question_checks.2.2.2.1 "q" stBusy "s" busySession (by decide)
      (by decide) (by decide)
  · exact ask_question_checks.2.2.2.2.2.2 "q" stDoc "s" docSession (by decide)
      (by decide) (by decide) (by decide) (by decide)

/-- C3: the PDF job stores the extractor result into extracted_text and
writes the success status on success; on failure it writes a status
carrying the failure reason (and containing the word "Error") and raises
nothing further; on both paths is_processing ends false and the per-session
messages list (and, as the record updates show, every other field) is
untouched. -/
theorem process_pdf_file_spec :
    ∀ (sid : String) (st : ServerState) (s : SessionData), st.chat sid = some s →
      (∀ text,
        (process_pdf_file sid (.ok text) st).chat sid =
          some { s with extracted_text := text, is_processing := false } ∧
        (process_pdf_file sid (.ok text) st).status sid =
          some "File processed successfully. You can now ask questions." ∧
        (text ≠ "" →
          ({ s with extracted_text := text, is_processing := false } : SessionData).extracted_text ≠ "")) ∧
      (∀ e,
        (process_pdf_file sid (.error e) st).chat sid = some { s with is_processing := false } ∧
        (process_pdf_file sid (.error e) st).status sid =
          some ("Error processing PDF: " ++ e) ∧
        containsWord "Error" ("Error processing PDF: " ++ e)) ∧
      (∀ pdfRes, ∃ s', (process_pdf_file sid pdfRes st).chat sid = some s' ∧
        s'.is_processing = false ∧ s'.messages = s.messages) := by
  intro sid st s h
  refine ⟨?_, ?_, ?_⟩
  · intro text
    refine ⟨?_, ?_, ?_⟩
    · simp [process_pdf_file, updateSession, mset, h]
    · simp [process_pdf_file, updateSession, mset, h]
    · intro htext; simpa using htext
  · intro e
    refine ⟨?_, ?_, ?_⟩
    · simp [process_pdf_file, updateSession, mset, h]
    · simp [process_pdf_file, updateSession, mset, h]
    · refine ⟨"", " processing PDF: " ++ e, ?_⟩
      rw [← string_append_assoc]
      rfl
  · intro pdfRes
    cases pdfRes with
    | ok text =>
      exact ⟨{ s with extracted_text := text, is_processing := false },
        by simp [process_pdf_file, updateSession, mset, h], rfl, rfl⟩
    | error e =>
      exact ⟨{ s with is_processing := false },
        by simp [process_pdf_file, updateSession, mset, h], rfl, rfl⟩

/-- Witness for process_pdf_file_spec: a concrete successful run and a
concrete failing run of the PDF job on a registered session. -/
theorem process_pdf_file_spec_witness :
    ((process_pdf_file "s" (.ok "pdf text") stDoc).chat "s" =
      some { docSession with extracted_text := "pdf text", is_processing := false } ∧
     (process_pdf_file "s" (.ok "pdf text") stDoc).status "s" =
      some "File processed successfully. You can now ask questions." ∧
     ("pdf text" ≠ "" →
      ({ docSession with extracted_text := "pdf text", is_processing := false } : SessionData).extracted_text ≠ "")) ∧
    ((process_pdf_file "s" (.error "boom") stDoc).status "s" =
      some ("Error processing PDF: " ++ "boom")) := by
  constructor
  · exact (process_pdf_file_spec "s" stDoc docSession (by decide)).1 "pdf text"
  · exact ((process_pdf_file_spec "s" stDoc docSession (by decide)).2.1 "boom").2.1

/-- C4: in the video job, a failure of audio extraction or transcription
(or of the final deletion itself) sets "Error processing video: " plus the
exception text and skips the remaining try-block steps, in particular the
temporary-file deletion, which therefore happens exactly on the all-success
path; on every exit path the final step clears is_processing. -/
theorem process_video_file_spec :
    ∀ (sid : String) (st : ServerState) (s : SessionData)
      (extractRes : Except String String)
      (transcribeRes : String → Except String TranscriptionResult)
      (removeRes : String → Except String Unit),
      st.chat sid = some s →
      (∀ e, extractRes = .error e →
        (process_video_file sid extractRes transcribeRes removeRes st).2 = false ∧
        (process_video_file sid extractRes transcribeRes removeRes st).1.status sid =
          some ("Error processing video: " ++ e) ∧
        (process_video_file sid extractRes transcribeRes removeRes st).1.chat sid =
          some { s with is_processing := false }) ∧
      (∀ audio_path e, extractRes = .ok audio_path → transcribeRes audio_path = .error e →
        (process_video_file sid extractRes transcribeRes removeRes st).2 = false ∧
        (process_video_file sid extractRes transcribeRes removeRes st).1.status sid =
          some ("Error processing video: " ++ e) ∧
        (process_video_file sid extractRes transcribeRes removeRes st).1.chat sid =
          some { s with is_processing := false }) ∧
      (∀ audio_path tr, extractRes = .ok audio_path → transcribeRes audio_path = .ok tr →
        removeRes audio_path = .ok () →
        (process_video_file sid extractRes transcribeRes removeRes st).2 = true ∧
        (process_video_file sid extractRes transcribeRes removeRes st).1.status sid =
          some "File processed successfully. You can now ask questions." ∧
        (process_video_file sid extractRes transcribeRes removeRes st).1.chat sid =
          some { s with
                 extracted_text := tr.text,
                 segments := some (tr.segments.getD []),
                 is_processing := false }) ∧
      ((process_video_file sid extractRes transcribeRes removeRes st).2 = true →
        (∃ audio_path tr, extractRes = .ok audio_path ∧ transcribeRes audio_path = .ok tr ∧
          removeRes audio_path = .ok ())) ∧
      (∃ s', (process_video_file sid extractRes transcribeRes removeRes st).1.chat sid =
        some s' ∧ s'.is_processing = false ∧ s'.messages = s.messages ∧
        containsWord "Error" ("Error processing video: " ++ "x")) := by
  intro sid st s extractRes transcribeRes removeRes h
  refine ⟨?_, ?_, ?_, ?_, ?_⟩
  · intro e he
    subst he
    refine ⟨rfl, ?_, ?_⟩
    · simp [process_video_file, updateSession, mset, h]
    · simp [process_video_file, updateSession, mset, h]
  · intro audio_path e hex htr
    subst hex
    refine ⟨?_, ?_, ?_⟩
    · simp [process_video_file, htr]
    · simp [process_video_file, htr, updateSession, mset, h]
    · simp [process_video_file, htr, updateSession, mset, h]
  · intro audio_path tr hex htr hrm
    subst hex
    refine ⟨?_, ?_, ?_⟩
    · simp [process_video_file, htr, hrm]
    · simp [process_video_file, htr, hrm, updateSession, mset, h]
    · simp [process_video_file, htr, hrm, updateSession, mset, h]
  · intro hdel
    cases hex : extractRes with
    | error e => rw [hex] at hdel; simp [process_video_file] at hdel
    | ok audio_path =>
      rw [hex] at hdel
      cases htr : transcribeRes audio_path with
      | error e => simp [process_video_file, htr] at hdel
      | ok tr =>
        cases hrm : removeRes audio_path with
        | error e => simp [process_video_file, htr, hrm] at hdel
        | ok u => exact ⟨audio_path, tr, rfl, htr, by cases u; exact hrm⟩
  · have hword : containsWord "Error" ("Error processing video: " ++ "x") := by
      refine ⟨"", " processing video: " ++ "x", ?_⟩
      rw [← string_append_assoc]
      rfl
    cases hex : extractRes with
    | error e =>
      exact ⟨{ s with is_processing := false },
        by simp [process_video_file, updateSession, mset, h], rfl, rfl, hword⟩
    | ok audio_path =>
      cases htr : transcribeRes audio_path with
      | error e =>
        exact ⟨{ s with is_processing := false },
          by simp [process_video_file, htr, updateSession, mset, h], rfl, rfl, hword⟩
      | ok tr =>
        cases hrm : removeRes audio_path with
        | error e =>
          exact ⟨{ s with
                   extracted_text := tr.text,
                   segments := some (tr.segments.getD []),
                   is_processing := false },
            by simp [process_video_file, htr, hrm, updateSession, mset, h], rfl, rfl, hword⟩
        | ok u =>
          exact ⟨{ s with
                   extracted_text := tr.text,
                   segments := some (tr.segments.getD []),
                   is_processing := false },
            by simp [process_video_file, htr, hrm, updateSession, mset, h], rfl, rfl, hword⟩

/-- Witness for process_video_file_spec: a concrete run whose transcription
fails (the temporary file is not deleted, the error status carries the
exception text, is_processing is cleared). -/
theorem process_video_file_spec_witness :
    (process_video_file "s" (.ok "tmp/a.wav") (fun _ => .error "no audio")
        (fun _ => .ok ()) stDoc).2 = false ∧
    (process_video_file "s" (.ok "tmp/a.wav") (fun _ => .error "no audio")
        (fun _ => .ok ()) stDoc).1.status "s" =
      some ("Error processing video: " ++ "no audio") ∧
    (process_video_file "s" (.ok "tmp/a.wav") (fun _ => .error "no audio")
        (fun _ => .ok ()) stDoc).1.chat "s" =
      some { docSession with is_processing := false } := by
  exact (process_video_file_spec "s" stDoc docSession (.ok "tmp/a.wav")
      (fun _ => .error "no audio") (fun _ => .ok ()) (by decide)).2.1
    "tmp/a.wav" "no audio" rfl rfl

/-- The assistant message appended by generate_answer for a given ollama
outcome: the returned content on success, the apology plus the failure
reason on failure (src/app.py:210-216, 224-227). -/
def answerContent (ollamaRes : Except String String) : String :=
  match ollamaRes with
  | .ok answer => answer
  | .error e => "Sorry, I encountered an error while processing your question: " ++ e

/-- C5: the answer job appends exactly one assistant message — the
content returned by the collaborator and the success status on success, the apology plus
the failure reason and the error status on failure — and clears
is_processing on both paths; hence a question accepted by ask_question
followed by the answer job grows the messages of this session by exactly the
user message and one assistant message. -/
theorem generate_answer_spec :
    (∀ (sid : String) (st : ServerState) (s : SessionData) ollamaRes,
      st.chat sid = some s →
      (generate_answer sid ollamaRes st).chat sid =
        some { s with
               messages := s.messages ++ [⟨"assistant", answerContent ollamaRes⟩],
               is_processing := false } ∧
      (∀ answer, ollamaRes = .ok answer →
        answerContent ollamaRes = answer ∧
        (generate_answer sid ollamaRes st).status sid = some "Answer generated successfully.") ∧
      (∀ e, ollamaRes = .error e →
        answerContent ollamaRes =
          "Sorry, I encountered an error while processing your question: " ++ e ∧
        (generate_answer sid ollamaRes st).status sid =
          some ("Error generating answer: " ++ e) ∧
        containsWord "Error" ("Error generating answer: " ++ e))) ∧
    (∀ (sid : String) (st : ServerState) (s : SessionData) (q : String) ollamaRes,
      st.chat sid = some s → sid ≠ "" → s.is_processing = false → q ≠ "" →
      s.extracted_text ≠ "" →
      (ask_question (some sid) q st).launched = some q ∧
      (generate_answer sid ollamaRes (ask_question (some sid) q st).state).chat sid =
        some { s with
               messages := s.messages ++ [⟨"user", q⟩, ⟨"assistant", answerContent ollamaRes⟩],
               is_processing := false }) := by
  constructor
  · intro sid st s ollamaRes h
    refine ⟨?_, ?_, ?_⟩
    · cases ollamaRes with
      | ok answer => simp [generate_answer, answerContent, updateSession, mset, h]
      | error e => simp [generate_answer, answerContent, updateSession, mset, h]
    · intro answer hres
      subst hres
      exact ⟨rfl, by simp [generate_answer, updateSession, mset, h]⟩
    · intro e hres
      subst hres
      refine ⟨rfl, by simp [generate_answer, updateSession, mset, h], ?_⟩
      refine ⟨"", " generating answer: " ++ e, ?_⟩
      rw [← string_append_assoc]
      rfl
  · intro sid st s q ollamaRes h hsid hproc hq hdoc
    have hask := ask_question_checks.2.2.2.2.2.2 q st sid s hsid h hproc hq hdoc
    rw [hask]
    constructor
    · rfl
    · have hchat1 : (mset st.chat sid
          { s with messages := s.messages ++ [⟨"user", q⟩], is_processing := true }) sid =
          some { s with messages := s.messages ++ [⟨"user", q⟩], is_processing := true } := by
        simp [mset]
      cases ollamaRes with
      | ok answer =>
        simp [generate_answer, answerContent, updateSession, mset, hchat1]
      | error e =>
        simp [generate_answer, answerContent, updateSession, mset, hchat1]

/-- Witness for generate_answer_spec: on a concrete accepted question the
failing answer job leaves exactly the user message followed by the apology
message, with is_processing cleared. -/
theorem generate_answer_spec_witness :
    (ask_question (some "s") "q" stDoc).launched = some "q" ∧
    (generate_answer "s" (.error "down") (ask_question (some "s") "q" stDoc).state).chat "s" =
      some { docSession with
             messages := docSession.messages ++
               [⟨"user", "q"⟩, ⟨"assistant", answerContent (.error "down")⟩],
             is_processing := false } := by
  exact generate_answer_spec.2 "s" stDoc docSession "q" (.error "down")
    (by decide) (by decide) (by decide) (by decide) (by decide)

/-- C9: /status answers 400 only for a request without a session token
(Python "if not session_id", which also covers the empty string, a value
the server never issues); any request with a nonempty token gets a 200
body, and a token unknown to both dictionaries — as after a restart — gets
the default status "Ready" with is_processing false rather than an
expired-session error. (Entries of processing_status are only ever created
for ids registered in chat_sessions, so a token unknown to the session
store is unknown to both.) -/
theorem get_status_unknown_token :
    (∀ st, get_status none st = .err 400 "Session expired") ∧
    (∀ st, get_status (some "") st = .err 400 "Session expired") ∧
    (∀ st sid, sid ≠ "" → st.chat sid = none → st.status sid = none →
      get_status (some sid) st = .ok "Ready" false) ∧
    (∀ st sid, sid ≠ "" → ∀ c m, get_status (some sid) st ≠ .err c m) := by
  refine ⟨?_, ?_, ?_, ?_⟩
  · intro st; rfl
  · intro st; rfl
  · intro st sid hsid hchat hstatus
    simp [get_status, hsid, hchat, hstatus]
  · intro st sid hsid c m
    simp [get_status, hsid]

/-- Witness for get_status_unknown_token: the empty store (a fresh server
process) answers a concrete nonempty unknown token with Ready/false. -/
theorem get_status_unknown_token_witness :
    get_status (some "old-token") emptyState = .ok "Ready" false := by
  exact get_status_unknown_token.2.2.1 emptyState "old-token" (by decide) rfl rfl

/-- C10: an /upload request with a well-formed file and a nonempty session
token that is not a key of chat_sessions crashes on the unguarded
store lookup of line 44 (a KeyError surfacing as a 500) before any event —
no file save, no status write, no state change; when the token is
registered (as the index route does for every token it sees), that lookup
cannot crash. -/
theorem upload_unknown_session_crash :
    (∀ req st sid, req.hasFile = true → req.filename ≠ "" →
      req.session_id = some sid → sid ≠ "" → st.chat sid = none →
      (upload_file req st).response = .crash "KeyError" ∧
      (upload_file req st).events = [] ∧
      uploadFinal req st = st) ∧
    (∀ req st sid s, req.session_id = some sid → st.chat sid = some s →
      ∀ e, (upload_file req st).response ≠ .crash e) ∧
    (∀ tok newId st, ((index (some tok) newId st).2).chat tok ≠ none) := by
  refine ⟨?_, ?_, ?_⟩
  · intro req st sid hfile hname hsid hne hchat
    have : upload_file req st = ⟨.crash "KeyError", []⟩ := by
      simp [upload_file, hfile, hname, hsid, hne, hchat]
    refine ⟨by rw [this], by rw [this], ?_⟩
    simp [uploadFinal, this, applyUEvents]
  · intro req st sid s hsid hchat e
    by_cases hfile : req.hasFile = true
    · by_cases hname : req.filename = ""
      · simp [upload_file, hfile, hname]
      · by_cases hne : sid = ""
        · simp [upload_file, hfile, hname, hsid, hne]
        · cases hext : rsplitExt (secure_filename req.filename) with
          | none => simp [upload_file, hfile, hname, hsid, hne, hchat, hext]
          | some rawExt =>
            by_cases hpdf : pyLower rawExt = "pdf"
            · simp [upload_file, hfile, hname, hsid, hne, hchat, hext, hpdf]
            · by_cases hvid : pyLower rawExt ∈ videoExtensions
              · simp [upload_file, hfile, hname, hsid, hne, hchat, hext, hpdf, hvid]
              · simp [upload_file, hfile, hname, hsid, hne, hchat, hext, hpdf, hvid]
    · simp [upload_file, hfile]
  · intro tok newId st
    cases hchat : st.chat tok with
    | some s => simp [index, hchat]
    | none => simp [index, hchat, mset]

/-- Witness for upload_unknown_session_crash: on the empty store a
well-formed upload with an unregistered token crashes with no state
change, while the same request on a store holding the token cannot crash. -/
theorem upload_unknown_session_crash_witness :
    ((upload_file ⟨true, "doc.pdf", some "ghost"⟩ emptyState).response = .crash "KeyError" ∧
     (upload_file ⟨true, "doc.pdf", some "ghost"⟩ emptyState).events = [] ∧
     uploadFinal ⟨true, "doc.pdf", some "ghost"⟩ emptyState = emptyState) ∧
    (∀ e, (upload_file ⟨true, "doc.pdf", some "s"⟩ stDoc).response ≠ .crash e) := by
  constructor
  · exact upload_unknown_session_crash.1 ⟨true, "doc.pdf", some "ghost"⟩ emptyState
      "ghost" rfl (by decide) rfl (by decide) rfl
  · exact upload_unknown_session_crash.2.1 ⟨true, "doc.pdf", some "s"⟩ stDoc
      "s" docSession rfl (by decide)

/-- C2 counterexample: on a registered session, an upload with the
unsupported extension "txt" does yield 400, but the handler sets
is_processing true (line 44, before the extension check) and only resets
it in the unsupported branch — so "never sets is_processing true at any
point during handling" is false; moreover a filename with no dot at all
("README") yields a 500, not a 400. -/
theorem upload_unsupported_counterexample :
    (rsplitExt (secure_filename "notes.txt")).map pyLower = some "txt" ∧
    ¬("txt" = "pdf" ∨ "txt" ∈ videoExtensions) ∧
    (upload_file ⟨true, "notes.txt", some "s"⟩ stDoc).response =
      .ok 400 "Unsupported file type" ∧
    UEvent.setProcessing true ∈ (upload_file ⟨true, "notes.txt", some "s"⟩ stDoc).events ∧
    rsplitExt (secure_filename "README") = none ∧
    (upload_file ⟨true, "README", some "s"⟩ stDoc).response =
      .ok 500 "list index out of range" := by
  decide

/-- C2 amended: an upload whose sanitized filename has a dot and whose
dispatch extension is outside {pdf, mp4, mov, avi, mkv} gets a 400
response, and at the end of handling the session is not marked processing
(is_processing is false, every other session field untouched) — but
is_processing is transiently set true during handling, and the
"Processing your file..." status written alongside it is left behind. -/
theorem upload_unsupported_amended :
    ∀ (req : UploadReq) (st : ServerState) (sid : String) (s : SessionData) (rawExt : String),
      req.hasFile = true → req.filename ≠ "" → req.session_id = some sid → sid ≠ "" →
      st.chat sid = some s →
      rsplitExt (secure_filename req.filename) = some rawExt →
      pyLower rawExt ≠ "pdf" → pyLower rawExt ∉ videoExtensions →
      (upload_file req st).response = .ok 400 "Unsupported file type" ∧
      (upload_file req st).events =
        [.setProcessing true, .setStatus "Processing your file...", .setProcessing false] ∧
      (uploadFinal req st).chat sid = some { s with is_processing := false } ∧
      (uploadFinal req st).status sid = some "Processing your file..." ∧
      UEvent.setProcessing true ∈ (upload_file req st).events := by
  intro req st sid s rawExt hfile hname hsid hne hchat hext hpdf hvid
  have hup : upload_file req st =
      ⟨.ok 400 "Unsupported file type",
        [.setProcessing true, .setStatus "Processing your file...", .setProcessing false]⟩ := by
    simp [upload_file, hfile, hname, hsid, hne, hchat, hext, hpdf, hvid]
  refine ⟨by rw [hup], by rw [hup], ?_, ?_, by rw [hup]; simp⟩
  · simp [uploadFinal, hup, hsid, applyUEvents, applyUEvent, updateSession, mset, hchat]
  · simp [uploadFinal, hup, hsid, applyUEvents, applyUEvent, updateSession, mset, hchat]

/-- Witness for upload_unsupported_amended: the concrete "notes.txt" upload
on a registered idle session ends with a 400 and is_processing false. -/
theorem upload_unsupported_amended_witness :
    (upload_file ⟨true, "notes.txt", some "s"⟩ stDoc).response =
      .ok 400 "Unsupported file type" ∧
    (uploadFinal ⟨true, "notes.txt", some "s"⟩ stDoc).chat "s" =
      some { docSession with is_processing := false } ∧
    UEvent.setProcessing true ∈ (upload_file ⟨true, "notes.txt", some "s"⟩ stDoc).events := by
  have h := upload_unsupported_amended ⟨true, "notes.txt", some "s"⟩ stDoc "s" docSession
    "txt" rfl (by decide) rfl (by decide) (by decide) (by decide) (by decide) (by decide)
  exact ⟨h.1, h.2.2.1, h.2.2.2.2⟩

/-- A session that has been through video processing: segments present. -/
def videoSession : SessionData :=
  { messages := [], extracted_text := "video text",
    segments := some [⟨0, 10, "a"⟩], is_processing := true }

/-- A one-session store whose session carries video segments. -/
def stVideo : ServerState :=
  { chat := mset (fun _ => none) "v" videoSession, status := fun _ => none }

/-- C7 counterexample: after a successful PDF job on a session that
previously processed a video, the session still holds the old segments —
the PDF pipeline never removes or overwrites the segments key, so "after a
PDF upload completes the session holds no segments" is false. -/
theorem pdf_keeps_segments_counterexample :
    ((process_pdf_file "v" (.ok "pdf text") stVideo).chat "v").map SessionData.segments =
      some (some [⟨0, 10, "a"⟩]) ∧
    ((process_pdf_file "v" (.ok "pdf text") stVideo).chat "v").map SessionData.segments ≠
      some none := by
  decide

/-- C7 amended: segments are written only by the video pipeline, which
overwrites them wholesale on success; the PDF pipeline overwrites
extracted_text but leaves the segments field exactly as it was (so a
session that never ran video processing has none, while stale segments
survive a later PDF upload); sessions are created without segments. -/
theorem segments_behavior :
    (∀ (sid : String) (st : ServerState) (s : SessionData) pdfRes,
      st.chat sid = some s →
      ∃ s', (process_pdf_file sid pdfRes st).chat sid = some s' ∧
        s'.segments = s.segments) ∧
    (∀ (sid : String) (st : ServerState) (s : SessionData) audio tr
      (transcribeRes : String → Except String TranscriptionResult)
      (removeRes : String → Except String Unit),
      st.chat sid = some s → transcribeRes audio = .ok tr →
      ∃ s', (process_video_file sid (.ok audio) transcribeRes removeRes st).1.chat sid =
          some s' ∧
        s'.segments = some (tr.segments.getD []) ∧ s'.extracted_text = tr.text) ∧
    initialSession.segments = none := by
  refine ⟨?_, ?_, rfl⟩
  · intro sid st s pdfRes h
    cases pdfRes with
    | ok text =>
      exact ⟨{ s with extracted_text := text, is_processing := false },
        by simp [process_pdf_file, updateSession, mset, h], rfl⟩
    | error e =>
      exact ⟨{ s with is_processing := false },
        by simp [process_pdf_file, updateSession, mset, h], rfl⟩
  · intro sid st s audio tr transcribeRes removeRes h htr
    cases hrm : removeRes audio with
    | ok u =>
      exact ⟨{ s with
               extracted_text := tr.text,
               segments := some (tr.segments.getD []),
               is_processing := false },
        by simp [process_video_file, htr, hrm, updateSession, mset, h], rfl, rfl⟩
    | error e =>
      exact ⟨{ s with
               extracted_text := tr.text,
               segments := some (tr.segments.getD []),
               is_processing := false },
        by simp [process_video_file, htr, hrm, updateSession, mset, h], rfl, rfl⟩

/-- Witness for segments_behavior: on the concrete video-then-PDF session
the PDF job preserves the stored segments, and a concrete video run stores
the segments returned by the transcriber. -/
theorem segments_behavior_witness :
    (∃ s', (process_pdf_file "v" (.ok "pdf text") stVideo).chat "v" = some s' ∧
      s'.segments = videoSession.segments) ∧
    (∃ s', (process_video_file "v" (.ok "a.wav")
        (fun _ => .ok ⟨"t", some [⟨1, 2, "x"⟩]⟩) (fun _ => .ok ()) stVideo).1.chat "v" =
        some s' ∧
      s'.segments = some ((some [⟨1, 2, "x"⟩] : Option (List Segment)).getD []) ∧
      s'.extracted_text = "t") := by
  constructor
  · exact segments_behavior.1 "v" stVideo videoSession (.ok "pdf text") (by decide)
  · exact segments_behavior.2.1 "v" stVideo videoSession "a.wav" ⟨"t", some [⟨1, 2, "x"⟩]⟩
      (fun _ => .ok ⟨"t", some [⟨1, 2, "x"⟩]⟩) (fun _ => .ok ()) (by decide) rfl

/-- C8 counterexample: the upload of "x.#pdf" is accepted and dispatched
to the PDF pipeline — sanitization deletes the "#", so the extension used
for dispatch is "pdf" — yet the lowercased extension of the originally
submitted filename is "#pdf": the sanitized filename does not preserve the
original extension, and the dispatch extension differs from it. -/
theorem sanitize_extension_counterexample :
    secure_filename "x.#pdf" = "x.pdf" ∧
    rsplitExt "x.#pdf" = some "#pdf" ∧
    (rsplitExt (secure_filename "x.#pdf")).map pyLower = some "pdf" ∧
    (some "pdf" : Option String) ≠ some "#pdf" ∧
    (upload_file ⟨true, "x.#pdf", some "s"⟩ stDoc).response =
      .ok 200 "File uploaded successfully. Processing..." ∧
    UEvent.launchPdfJob (pathJoin UPLOAD_FOLDER_PDF "x.pdf") ∈
      (upload_file ⟨true, "x.#pdf", some "s"⟩ stDoc).events := by
  decide

/-- An alphanumeric ASCII character is not whitespace, not a slash, not a
dot or underscore, and survives the character class of the sanitizer. -/
lemma alnum_char_facts (c : Char) (h : c.isAlphanum = true) :
    pyIsSpace c = false ∧ c ≠ '/' ∧ c ≠ '.' ∧ keptChar c = true ∧
    dotOrUnderscore c = false := by
  have hrange : (65 ≤ c.val ∧ c.val ≤ 90) ∨ (97 ≤ c.val ∧ c.val ≤ 122) ∨
      (48 ≤ c.val ∧ c.val ≤ 57) := by
    simp [Char.isAlphanum, Char.isAlpha, Char.isUpper, Char.isLower, Char.isDigit] at h
    rcases h with (h | h) | h
    · exact Or.inl h
    · exact Or.inr (Or.inl h)
    · exact Or.inr (Or.inr h)
  have key : ∀ d : Char, c = d →
      (65 ≤ d.val ∧ d.val ≤ 90) ∨ (97 ≤ d.val ∧ d.val ≤ 122) ∨
        (48 ≤ d.val ∧ d.val ≤ 57) :=
    fun d hd => hd ▸ hrange
  have hsp : c ≠ ' ' := fun hc => absurd (key ' ' hc) (by decide)
  have htab : c ≠ '\t' := fun hc => absurd (key '\t' hc) (by decide)
  have hnl : c ≠ '\n' := fun hc => absurd (key '\n' hc) (by decide)
  have hcr : c ≠ '\x0d' := fun hc => absurd (key '\x0d' hc) (by decide)
  have hvt : c ≠ '\x0b' := fun hc => absurd (key '\x0b' hc) (by decide)
  have hff : c ≠ '\x0c' := fun hc => absurd (key '\x0c' hc) (by decide)
  have hsl : c ≠ '/' := fun hc => absurd (key '/' hc) (by decide)
  have hdot : c ≠ '.' := fun hc => absurd (key '.' hc) (by decide)
  have hund : c ≠ '_' := fun hc => absurd (key '_' hc) (by decide)
  refine ⟨?_, hsl, hdot, ?_, ?_⟩
  · simp [pyIsSpace, hsp, htab, hnl, hcr, hvt, hff]
  · simp [keptChar, h]
  · simp [dotOrUnderscore, hdot, hund]

/-- dropWhile is the identity when the head (if any) fails the predicate. -/
lemma dropWhile_eq_self_of_head (p : Char → Bool) (l : List Char)
    (h : ∀ c, l.head? = some c → p c = false) : l.dropWhile p = l := by
  cases l with
  | nil => rfl
  | cons a t => simp [List.dropWhile, h a rfl]

/-- Python str.split() of a nonempty whitespace-free text is one word. -/
lemma splitWsAux_no_space :
    ∀ (l acc : List Char), (∀ c ∈ l, pyIsSpace c = false) →
      splitWsAux l acc = if acc = [] ∧ l = [] then [] else [acc.reverse ++ l] := by
  intro l
  induction l with
  | nil =>
    intro acc h
    by_cases hacc : acc = [] <;> simp [splitWsAux, hacc]
  | cons c cs ih =>
    intro acc h
    have hc : pyIsSpace c = false := h c (List.mem_cons_self c cs)
    have hcs : ∀ x ∈ cs, pyIsSpace x = false := fun x hx => h x (List.mem_cons_of_mem c hx)
    have := ih (c :: acc) hcs
    simp only [splitWsAux, hc] at this ⊢
    simp only [this]
    simp

/-- afterLastDot of a dot-free list is none. -/
lemma afterLastDot_of_no_dot :
    ∀ (l : List Char), (∀ c ∈ l, c ≠ '.') → afterLastDot l = none := by
  intro l
  induction l with
  | nil => intro h; rfl
  | cons c cs ih =>
    intro h
    have hc : c ≠ '.' := h c (List.mem_cons_self c cs)
    have hcs : ∀ x ∈ cs, x ≠ '.' := fun x hx => h x (List.mem_cons_of_mem c hx)
    simp [afterLastDot, ih hcs, hc]

/-- afterLastDot finds the final dot when the suffix after it is dot-free. -/
lemma afterLastDot_concat :
    ∀ (base ext : List Char), (∀ c ∈ ext, c ≠ '.') →
      afterLastDot (base ++ '.' :: ext) = some ext := by
  intro base
  induction base with
  | nil =>
    intro ext hext
    simp [afterLastDot, afterLastDot_of_no_dot ext hext]
  | cons b bs ih =>
    intro ext hext
    simp [afterLastDot, ih ext hext]

/-- C8 amended: the dispatch extension is taken from the sanitized name,
which need not preserve the original extension in general (see the
counterexample); but whenever the submitted filename is base.ext with
nonempty all-alphanumeric ASCII base and ext, sanitization is the identity
on it, so the extension survives sanitization and the dispatch extension
equals the lowercased original extension. -/
theorem sanitize_preserves_alnum_extension :
    ∀ (base ext : List Char), base ≠ [] → ext ≠ [] →
      (∀ c ∈ base, c.isAlphanum = true) → (∀ c ∈ ext, c.isAlphanum = true) →
      secure_filename (String.mk (base ++ '.' :: ext)) = String.mk (base ++ '.' :: ext) ∧
      rsplitExt (String.mk (base ++ '.' :: ext)) = some (String.mk ext) ∧
      (rsplitExt (secure_filename (String.mk (base ++ '.' :: ext)))).map pyLower =
        (rsplitExt (String.mk (base ++ '.' :: ext))).map pyLower := by
  intro base ext hb he hball heall
  have hmemL : ∀ c ∈ base ++ '.' :: ext, c ∈ base ∨ c = '.' ∨ c ∈ ext := by
    intro c hc
    rw [List.mem_append, List.mem_cons] at hc
    tauto
  have hfacts : ∀ c ∈ base ++ '.' :: ext,
      c ≠ '/' ∧ pyIsSpace c = false ∧ keptChar c = true := by
    intro c hc
    rcases hmemL c hc with hcb | hcd | hce
    · have f := alnum_char_facts c (hball c hcb)
      exact ⟨f.2.1, f.1, f.2.2.2.1⟩
    · subst hcd
      exact ⟨by decide, by decide, by decide⟩
    · have f := alnum_char_facts c (heall c hce)
      exact ⟨f.2.1, f.1, f.2.2.2.1⟩
  have hmap : (base ++ '.' :: ext).map (fun c => if c = '/' then ' ' else c) =
      base ++ '.' :: ext := by
    have h1 : ∀ c ∈ base ++ '.' :: ext, (if c = '/' then ' ' else c) = c := by
      intro c hc
      simp [(hfacts c hc).1]
    rw [List.map_congr_left h1, List.map_id']
  have hLne : base ++ '.' :: ext ≠ [] := by simp
  have hsplit : splitWs (base ++ '.' :: ext) = [base ++ '.' :: ext] := by
    have hns : ∀ c ∈ base ++ '.' :: ext, pyIsSpace c = false :=
      fun c hc => (hfacts c hc).2.1
    simp [splitWs, splitWsAux_no_space (base ++ '.' :: ext) [] hns, hLne]
  have hfilter : (base ++ '.' :: ext).filter keptChar = base ++ '.' :: ext :=
    List.filter_eq_self.mpr fun c hc => (hfacts c hc).2.2
  obtain ⟨b, bs, hbase⟩ := List.exists_cons_of_ne_nil hb
  have hrevne : ext.reverse ≠ [] := by simp [he]
  obtain ⟨e, es, hrev⟩ := List.exists_cons_of_ne_nil hrevne
  have he_mem : e ∈ ext := by
    have : e ∈ ext.reverse := by
      rw [hrev]
      exact List.mem_cons_self e es
    simpa [List.mem_reverse] using this
  have hstrip : stripDotUnderscore (base ++ '.' :: ext) = base ++ '.' :: ext := by
    have hd1 : (base ++ '.' :: ext).dropWhile dotOrUnderscore = base ++ '.' :: ext := by
      apply dropWhile_eq_self_of_head
      intro c hc
      rw [hbase, List.cons_append, List.head?_cons] at hc
      have hcb : c = b := by injection hc with h1; exact h1.symm
      subst hcb
      exact (alnum_char_facts c (hball c (by simp [hbase]))).2.2.2.2
    have hd2 : (base ++ '.' :: ext).reverse.dropWhile dotOrUnderscore =
        (base ++ '.' :: ext).reverse := by
      apply dropWhile_eq_self_of_head
      intro c hc
      rw [List.reverse_append, List.reverse_cons, hrev, List.cons_append,
        List.cons_append, List.head?_cons] at hc
      have hce : c = e := by injection hc with h1; exact h1.symm
      subst hce
      exact (alnum_char_facts c (heall c he_mem)).2.2.2.2
    show (((base ++ '.' :: ext).dropWhile dotOrUnderscore).reverse.dropWhile
      dotOrUnderscore).reverse = base ++ '.' :: ext
    rw [hd1, hd2, List.reverse_reverse]
  have hdotfree : ∀ c ∈ ext, c ≠ '.' :=
    fun c hc => (alnum_char_facts c (heall c hc)).2.2.1
  have hsan : secure_filename (String.mk (base ++ '.' :: ext)) =
      String.mk (base ++ '.' :: ext) := by
    simp only [secure_filename]
    rw [hmap, hsplit]
    rw [show List.intercalate ['_'] [base ++ '.' :: ext] = base ++ '.' :: ext by
      simp [List.intercalate]]
    rw [hfilter, hstrip]
  have hrsplit : rsplitExt (String.mk (base ++ '.' :: ext)) = some (String.mk ext) := by
    simp [rsplitExt, afterLastDot_concat base ext hdotfree]
  exact ⟨hsan, hrsplit, by rw [hsan]⟩

/-- Witness for sanitize_preserves_alnum_extension: for "report.PDF" the
sanitized name is unchanged and the dispatch extension is the lowercased
original extension "pdf". -/
theorem sanitize_preserves_alnum_extension_witness :
    secure_filename (String.mk ("report".data ++ '.' :: "PDF".data)) =
      String.mk ("report".data ++ '.' :: "PDF".data) ∧
    rsplitExt (String.mk ("report".data ++ '.' :: "PDF".data)) = some (String.mk "PDF".data) ∧
    (rsplitExt (secure_filename (String.mk ("report".data ++ '.' :: "PDF".data)))).map pyLower =
      (rsplitExt (String.mk ("report".data ++ '.' :: "PDF".data))).map pyLower := by
  exact sanitize_preserves_alnum_extension "report".data "PDF".data (by decide) (by decide)
    (by decide) (by decide)
